import Mathlib

/-!
# Live Share SDK — Media Session Coordinator: shallow embedding

This file embeds, in Lean 4, the parts of the `LiveMediaSessionCoordinator`
(media coordination facade), the `RoleVerifier`, and the event-target wiring
of the Live Share SDK that the verified claims are about, and proves the
claims about those definitions.

Numbers that are `number` in TypeScript (playback positions, seconds,
milliseconds) are modelled as exact rationals `ℚ`; reference timestamps are
modelled as integers `ℤ`; nullable / optional values as `Option`; thrown
exceptions as `Except` errors.
-/

namespace LiveShare

/-- Roles are opaque strings (`UserMeetingRole`). -/
abbrev Role := String

/-- `IUserInfo` as seen by the role verifier: the host may report a missing
roles array, hence `Option`. -/
structure UserInfo where
  roles : Option (List Role)
deriving Repr, DecidableEq

/-- The `ILiveShareHost.getUserInfo` lookup, modelled as a pure map from a
client id to the user info the host would return (`none` when the host
returns `undefined`). -/
abbrev Host := String → Option UserInfo

/-- Error message thrown by `RoleVerifier.verifyRolesAllowed` on a falsy
client id. -/
def roleVerifierMissingClientIdMsg : String :=
  "RoleVerifier: called verifyRolesAllowed\x28\x29 without a clientId"

namespace RoleVerifier

/-- `RoleVerifier.getClientRoles`: `userInfo?.roles ?? []`. -/
def getClientRoles (host : Host) (clientId : String) : List Role :=
  match host clientId with
  | Option.none => []
  | Option.some info => info.roles.getD []

/-- `RoleVerifier.verifyRolesAllowed`: throws on a falsy (empty) client id;
with a non-empty `allowedRoles` list returns whether the client's reported
roles contain at least one allowed role; with an empty list returns true. -/
def verifyRolesAllowed (host : Host) (clientId : String)
    (allowedRoles : List Role) : Except String Bool :=
  if clientId = "" then
    Except.error roleVerifierMissingClientIdMsg
  else if allowedRoles.length > 0 then
    let roles := getClientRoles host clientId
    Except.ok (allowedRoles.any (fun role => roles.contains role))
  else
    Except.ok true

end RoleVerifier

/-- `ExtendedMediaSessionPlaybackState`. -/
inductive PlaybackState where
  | none
  | paused
  | playing
  | ended
  | suspended
  | waiting
deriving Repr, DecidableEq

/-- `MediaPositionState`: the `position` field is optional in the DOM type. -/
structure MediaPositionState where
  position : Option ℚ
deriving Repr, DecidableEq

/-- `IMediaPlayerState`: the state the media player reports to the
coordinator.  Metadata and track data are opaque; only their presence
matters to the embedded code. -/
structure IMediaPlayerState where
  metadata : Option String
  trackData : Option String
  playbackState : PlaybackState
  positionState : Option MediaPositionState
deriving Repr, DecidableEq

/-- A playback track as carried by `playbackTrack.current`: only its
(nullable) metadata matters to the embedded checks. -/
structure Track where
  metadata : Option String
deriving Repr, DecidableEq

/-- The slice of `GroupCoordinatorState` the coordinator facade reads
synchronously: the current playback track. -/
structure GroupCoordinatorState where
  playbackTrackCurrent : Track
deriving Repr, DecidableEq

/-- The coordinator state the facade methods consult before sending. -/
structure Coordinator where
  hasInitialized : Bool
  groupState : Option GroupCoordinatorState
  canPlayPause : Bool
  canSeek : Bool
deriving Repr, DecidableEq

/-- The `?.` chain `this._groupState?.playbackTrack.current.metadata`. -/
def Coordinator.currentMetadata (c : Coordinator) : Option String :=
  match c.groupState with
  | Option.none => Option.none
  | Option.some gs => gs.playbackTrackCurrent.metadata

/-- An `ITransportCommandEvent` payload: `{ track, position }`. -/
structure TransportCommandEvent where
  track : Track
  position : ℚ
deriving Repr, DecidableEq

/-- Errors thrown by the coordinator facade.  `transport e` wraps a failed
`sendEvent`, carrying an opaque identifier of the original error. -/
inductive CoordError where
  | notInitialized
  | noTrack
  | blocked
  | transport (e : ℕ)
deriving Repr, DecidableEq

/-- Outcome of `play()` / `pause()`: the transport event handed to
`sendEvent` (if any) and the result surfaced to the caller. -/
structure TransportOutcome where
  sent : Option TransportCommandEvent
  result : Except CoordError Unit
deriving Repr

/-- Outcome of `seekTo()`: additionally records whether
`groupState.syncLocalMediaSession()` was invoked. -/
structure SeekOutcome where
  sent : Option TransportCommandEvent
  syncedLocal : Bool
  result : Except CoordError Unit
deriving Repr

/-- `LiveMediaSessionCoordinator.getPlayerPosition`. -/
def getPlayerPosition (state : IMediaPlayerState) : ℚ :=
  match state.playbackState with
  | PlaybackState.none => 0
  | PlaybackState.ended => 0
  | _ =>
    match state.positionState with
    | Option.some ps =>
      match ps.position with
      | Option.some p => p
      | Option.none => 0
    | Option.none => 0

/-- `LiveMediaSessionCoordinator.play`: the three guard checks in source
order, then `sendEvent` with the current track and projected position. -/
def Coordinator.play (c : Coordinator) (state : IMediaPlayerState) :
    TransportOutcome :=
  if c.hasInitialized = false then
    ⟨Option.none, Except.error CoordError.notInitialized⟩
  else
    match c.groupState with
    | Option.none => ⟨Option.none, Except.error CoordError.noTrack⟩
    | Option.some gs =>
      match gs.playbackTrackCurrent.metadata with
      | Option.none => ⟨Option.none, Except.error CoordError.noTrack⟩
      | Option.some _ =>
        if c.canPlayPause = false then
          ⟨Option.none, Except.error CoordError.blocked⟩
        else
          ⟨Option.some ⟨gs.playbackTrackCurrent, getPlayerPosition state⟩,
            Except.ok ()⟩

/-- `LiveMediaSessionCoordinator.pause`: identical guards to `play`. -/
def Coordinator.pause (c : Coordinator) (state : IMediaPlayerState) :
    TransportOutcome :=
  if c.hasInitialized = false then
    ⟨Option.none, Except.error CoordError.notInitialized⟩
  else
    match c.groupState with
    | Option.none => ⟨Option.none, Except.error CoordError.noTrack⟩
    | Option.some gs =>
      match gs.playbackTrackCurrent.metadata with
      | Option.none => ⟨Option.none, Except.error CoordError.noTrack⟩
      | Option.some _ =>
        if c.canPlayPause = false then
          ⟨Option.none, Except.error CoordError.blocked⟩
        else
          ⟨Option.some ⟨gs.playbackTrackCurrent, getPlayerPosition state⟩,
            Except.ok ()⟩

/-- `LiveMediaSessionCoordinator.seekTo`: guards in source order, then
`sendEvent`; on a send failure it runs `syncLocalMediaSession()` and
rethrows the original error.  `sendResult` models whether the transport
send succeeds or fails (with an opaque error id). -/
def Coordinator.seekTo (c : Coordinator) (time : ℚ)
    (sendResult : Except ℕ Unit) : SeekOutcome :=
  if c.hasInitialized = false then
    ⟨Option.none, false, Except.error CoordError.notInitialized⟩
  else
    match c.groupState with
    | Option.none => ⟨Option.none, false, Except.error CoordError.noTrack⟩
    | Option.some gs =>
      match gs.playbackTrackCurrent.metadata with
      | Option.none => ⟨Option.none, false, Except.error CoordError.noTrack⟩
      | Option.some _ =>
        if c.canSeek = false then
          ⟨Option.none, false, Except.error CoordError.blocked⟩
        else
          let evt : TransportCommandEvent := ⟨gs.playbackTrackCurrent, time⟩
          match sendResult with
          | Except.ok _ => ⟨Option.some evt, false, Except.ok ()⟩
          | Except.error e =>
            ⟨Option.some evt, true, Except.error (CoordError.transport e)⟩

/-- Outcome of `sendPositionUpdate` once role verification has resolved:
`appliedLocal` is the `(clientId, timestamp, data)` record handed to
`groupState.handlePositionUpdate` with `local = true` (if any), and
`sentEvent` is the event handed to `positionUpdateEvent.sendEvent`
(if any).  `ε` is the opaque type of position-update event payloads. -/
structure PositionUpdateOutcome (ε : Type) where
  appliedLocal : Option (String × ℤ × ε)
  sentEvent : Option ε
deriving Repr

/-- `LiveMediaSessionCoordinator.sendPositionUpdate`: throws if not
initialized; otherwise creates the event via
`groupState.createPositionUpdateEvent` (modelled by the opaque `createEvt`)
and, when local role verification resolved to `valid = false`, applies the
event locally stamped with `runtime.clientId ?? ""` and the current
reference timestamp, sending nothing; when `valid = true`, sends it. -/
def sendPositionUpdate {ε : Type} (hasInitialized : Bool) (valid : Bool)
    (clientId : Option String) (timestamp : ℤ)
    (createEvt : IMediaPlayerState → ε) (state : IMediaPlayerState) :
    Except CoordError (PositionUpdateOutcome ε) :=
  if hasInitialized = false then
    Except.error CoordError.notInitialized
  else
    let evt := createEvt state
    if valid = false then
      Except.ok ⟨Option.some (clientId.getD "", timestamp, evt), Option.none⟩
    else
      Except.ok ⟨Option.none, Option.some evt⟩

/-- A `LiveEventScope` as configured by `createChildren`: the restricted
scope carries the `acceptTransportChangesFrom` roles handed to
`initialize()`, the unrestricted scope carries no role list. -/
structure Scope where
  allowedRoles : Option (List Role)
deriving Repr, DecidableEq

/-- The event targets `createChildren` registers, in source order: each
pair is the event name and the scope the target is constructed on.
`acceptFrom` is the (optional) role list passed to `initialize()`. -/
def createChildrenTargets (acceptFrom : Option (List Role)) :
    List (String × Scope) :=
  [ ("setTrack", ⟨acceptFrom⟩)
  , ("setTrackData", ⟨acceptFrom⟩)
  , ("play", ⟨acceptFrom⟩)
  , ("pause", ⟨acceptFrom⟩)
  , ("seekTo", ⟨acceptFrom⟩)
  , ("positionUpdate", ⟨Option.none⟩)
  , ("joined", ⟨Option.none⟩) ]

/-- Modelled from the spec: the `LiveEventScope` inbound filter is not under
`src/` (only its construction in `createChildren` is).  Per the spec, a
restricted scope "only accepts inbound events whose sender holds one of the
allowed roles" and an empty role set means unrestricted; a scope built
without a role list accepts every sender. -/
def scopeDelivers (s : Scope) (senderRoles : List Role) : Bool :=
  match s.allowedRoles with
  | Option.none => true
  | Option.some allowed =>
    allowed.isEmpty || allowed.any (fun role => senderRoles.contains role)

/-- Modelled from the spec: the `TimeInterval` helper class is not under
`src/` (only its uses in the coordinator are).  The spec requires
`max_playback_drift_seconds` and `position_update_interval_seconds` to be
strictly positive, so the seconds setter accepts only positive values and
leaves the stored interval unchanged otherwise.  The stored value is in
milliseconds, as in the coordinator's `new TimeInterval(2000)` /
`new TimeInterval(1000)`. -/
structure TimeInterval where
  milliseconds : ℚ
deriving Repr, DecidableEq

/-- The `seconds` getter: stored milliseconds over 1000. -/
def TimeInterval.seconds (t : TimeInterval) : ℚ := t.milliseconds / 1000

/-- Modelled from the spec: the `seconds` setter, accepting only strictly
positive values (the spec's "must be > 0"). -/
def TimeInterval.setSeconds (t : TimeInterval) (value : ℚ) : TimeInterval :=
  if 0 < value then ⟨value * 1000⟩ else t

/-- `_positionUpdateInterval = new TimeInterval(2000)`. -/
def defaultPositionUpdateInterval : TimeInterval := ⟨2000⟩

/-- `_maxPlaybackDrift = new TimeInterval(1000)`. -/
def defaultMaxPlaybackDrift : TimeInterval := ⟨1000⟩

/-- Outcome of the suspension-end callback passed to
`LiveMediaSessionCoordinatorSuspension` in `beginSuspension`:
`endSuspensionSeekEnded` is the boolean `time == undefined` passed to
`groupState.endSuspension` (which clears the local suspension), and
`seekTarget` is the position handed to `this.seekTo` when a seek is
issued. -/
structure EndSuspensionOutcome where
  endSuspensionSeekEnded : Bool
  seekTarget : Option ℚ
deriving Repr, DecidableEq

/-- The callback `beginSuspension` installs on the returned suspension
handle; the handle's `end(time?)` invokes it.  `isSuspendedAfter` and
`isWaitingAfter` are the group state's `isSuspended` / `isWaiting` values
observed after `endSuspension` has run. -/
def suspensionEndCallback (time : Option ℚ)
    (isSuspendedAfter isWaitingAfter : Bool) : EndSuspensionOutcome :=
  let seekTarget :=
    match time with
    | Option.none => Option.none
    | Option.some t =>
      if isSuspendedAfter = false ∧ isWaitingAfter = false then
        Option.some (max t 0)
      else
        Option.none
  ⟨time.isNone, seekTarget⟩

/-! ## Theorems -/

/-- C5: for every non-empty `clientId` and every allowed-role list,
`verifyRolesAllowed` returns a boolean (it does not throw); it returns
`true` when the allowed-role list is empty, and otherwise returns `true`
if and only if the roles reported for that client contain at least one of
the allowed roles. -/
theorem verifyRolesAllowed_characterization (host : Host) (clientId : String)
    (allowedRoles : List Role) (h : clientId ≠ "") :
    (∃ b, RoleVerifier.verifyRolesAllowed host clientId allowedRoles =
        Except.ok b) ∧
    (allowedRoles = [] →
      RoleVerifier.verifyRolesAllowed host clientId allowedRoles =
        Except.ok true) ∧
    (RoleVerifier.verifyRolesAllowed host clientId allowedRoles =
        Except.ok true ↔
      allowedRoles = [] ∨
        ∃ r ∈ allowedRoles, r ∈ RoleVerifier.getClientRoles host clientId) := by
  unfold RoleVerifier.verifyRolesAllowed
  rcases allowedRoles with _ | ⟨r0, rest⟩
  · simp [h]
  · refine ⟨⟨(r0 :: rest).any
      (fun role =>
        (RoleVerifier.getClientRoles host clientId).contains role), ?_⟩,
      ?_, ?_⟩
    · simp [h]
    · intro hempty
      exact absurd hempty (List.cons_ne_nil r0 rest)
    · simp [h, List.any_eq_true]

/-- C5 witness: a host reporting role "presenter" for client "a" passes the
check against allowed roles `["presenter"]`. -/
theorem verifyRolesAllowed_characterization_witness :
    RoleVerifier.verifyRolesAllowed
        (fun _ => Option.some ⟨Option.some ["presenter"]⟩) "a" ["presenter"] =
      Except.ok true :=
  (verifyRolesAllowed_characterization
      (fun _ => Option.some ⟨Option.some ["presenter"]⟩) "a" ["presenter"]
      (by decide)).2.2.mpr
    (Or.inr ⟨"presenter", by simp, by simp [RoleVerifier.getClientRoles]⟩)

/-- C10: calling `verifyRolesAllowed` with an empty (falsy) client id throws,
whatever the host and the allowed-role list. -/
theorem verifyRolesAllowed_empty_clientId (host : Host)
    (allowedRoles : List Role) :
    RoleVerifier.verifyRolesAllowed host "" allowedRoles =
      Except.error roleVerifierMissingClientIdMsg := by
  simp [RoleVerifier.verifyRolesAllowed]

/-- C1: `play()`, `pause()` and `seekTo()` check, in order: initialization,
loaded track metadata, then the advisory flag (`canPlayPause` for
play/pause, `canSeek` for seekTo); the first failing check throws the
corresponding error with no transport event sent (`sent = none`) and, for
seekTo, no local sync. -/
theorem transport_method_guard_order (c : Coordinator)
    (state : IMediaPlayerState) (time : ℚ) (sendResult : Except ℕ Unit) :
    (c.hasInitialized = false →
      c.play state =
        ⟨Option.none, Except.error CoordError.notInitialized⟩ ∧
      c.pause state =
        ⟨Option.none, Except.error CoordError.notInitialized⟩ ∧
      c.seekTo time sendResult =
        ⟨Option.none, false, Except.error CoordError.notInitialized⟩) ∧
    (c.hasInitialized = true → c.currentMetadata = Option.none →
      c.play state = ⟨Option.none, Except.error CoordError.noTrack⟩ ∧
      c.pause state = ⟨Option.none, Except.error CoordError.noTrack⟩ ∧
      c.seekTo time sendResult =
        ⟨Option.none, false, Except.error CoordError.noTrack⟩) ∧
    (c.hasInitialized = true → c.currentMetadata ≠ Option.none →
      c.canPlayPause = false →
      c.play state = ⟨Option.none, Except.error CoordError.blocked⟩ ∧
      c.pause state = ⟨Option.none, Except.error CoordError.blocked⟩) ∧
    (c.hasInitialized = true → c.currentMetadata ≠ Option.none →
      c.canSeek = false →
      c.seekTo time sendResult =
        ⟨Option.none, false, Except.error CoordError.blocked⟩) := by
  refine ⟨?_, ?_, ?_, ?_⟩
  · intro h1
    simp [Coordinator.play, Coordinator.pause, Coordinator.seekTo, h1]
  · intro h1 h2
    rcases hg : c.groupState with _ | gs
    · simp [Coordinator.play, Coordinator.pause, Coordinator.seekTo, h1, hg]
    · simp only [Coordinator.currentMetadata, hg] at h2
      simp [Coordinator.play, Coordinator.pause, Coordinator.seekTo,
        h1, hg, h2]
  · intro h1 h2 h3
    rcases hg : c.groupState with _ | gs
    · simp only [Coordinator.currentMetadata, hg] at h2
      exact absurd rfl h2
    · simp only [Coordinator.currentMetadata, hg] at h2
      rcases hm : gs.playbackTrackCurrent.metadata with _ | m
      · exact absurd hm h2
      · simp [Coordinator.play, Coordinator.pause, h1, hg, hm, h3]
  · intro h1 h2 h3
    rcases hg : c.groupState with _ | gs
    · simp only [Coordinator.currentMetadata, hg] at h2
      exact absurd rfl h2
    · simp only [Coordinator.currentMetadata, hg] at h2
      rcases hm : gs.playbackTrackCurrent.metadata with _ | m
      · exact absurd hm h2
      · simp [Coordinator.seekTo, h1, hg, hm, h3]

/-- C1 witness: the three failure modes at concrete coordinators — not
initialized; initialized without track metadata; initialized with a track
but with the advisory flags cleared. -/
theorem transport_method_guard_order_witness :
    (Coordinator.play ⟨false, Option.none, true, true⟩
        ⟨Option.none, Option.none, PlaybackState.playing, Option.none⟩ =
      ⟨Option.none, Except.error CoordError.notInitialized⟩) ∧
    (Coordinator.pause ⟨true, Option.some ⟨⟨Option.none⟩⟩, true, true⟩
        ⟨Option.none, Option.none, PlaybackState.playing, Option.none⟩ =
      ⟨Option.none, Except.error CoordError.noTrack⟩) ∧
    (Coordinator.play ⟨true, Option.some ⟨⟨Option.some "t"⟩⟩, false, false⟩
        ⟨Option.none, Option.none, PlaybackState.playing, Option.none⟩ =
      ⟨Option.none, Except.error CoordError.blocked⟩) ∧
    (Coordinator.seekTo ⟨true, Option.some ⟨⟨Option.some "t"⟩⟩, false, false⟩
        3 (Except.ok ()) =
      ⟨Option.none, false, Except.error CoordError.blocked⟩) :=
  ⟨((transport_method_guard_order ⟨false, Option.none, true, true⟩
      ⟨Option.none, Option.none, PlaybackState.playing, Option.none⟩
      3 (Except.ok ())).1 rfl).1,
   (((transport_method_guard_order ⟨true, Option.some ⟨⟨Option.none⟩⟩,
        true, true⟩
      ⟨Option.none, Option.none, PlaybackState.playing, Option.none⟩
      3 (Except.ok ())).2.1 rfl rfl).2).1,
   ((transport_method_guard_order
      ⟨true, Option.some ⟨⟨Option.some "t"⟩⟩, false, false⟩
      ⟨Option.none, Option.none, PlaybackState.playing, Option.none⟩
      3 (Except.ok ())).2.2.1 rfl (by simp [Coordinator.currentMetadata])
      rfl).1,
   (transport_method_guard_order
      ⟨true, Option.some ⟨⟨Option.some "t"⟩⟩, false, false⟩
      ⟨Option.none, Option.none, PlaybackState.playing, Option.none⟩
      3 (Except.ok ())).2.2.2 rfl (by simp [Coordinator.currentMetadata])
      rfl⟩

/-- C2: when `seekTo` passes its guards and the transport send fails, the
coordinator runs `syncLocalMediaSession()` on the group state
(`syncedLocal = true`) and rethrows the original send error. -/
theorem seekTo_send_failure_syncs_then_rethrows (c : Coordinator)
    (gs : GroupCoordinatorState) (m : String) (time : ℚ) (e : ℕ)
    (h1 : c.hasInitialized = true) (h2 : c.groupState = Option.some gs)
    (h3 : gs.playbackTrackCurrent.metadata = Option.some m)
    (h4 : c.canSeek = true) :
    c.seekTo time (Except.error e) =
      ⟨Option.some ⟨gs.playbackTrackCurrent, time⟩, true,
        Except.error (CoordError.transport e)⟩ := by
  simp [Coordinator.seekTo, h1, h2, h3, h4]

/-- C2 witness: a concrete initialized coordinator with a loaded track whose
seek send fails with error id 7. -/
theorem seekTo_send_failure_syncs_then_rethrows_witness :
    Coordinator.seekTo ⟨true, Option.some ⟨⟨Option.some "t"⟩⟩, true, true⟩
        12 (Except.error 7) =
      ⟨Option.some ⟨⟨Option.some "t"⟩, 12⟩, true,
        Except.error (CoordError.transport 7)⟩ :=
  seekTo_send_failure_syncs_then_rethrows
    ⟨true, Option.some ⟨⟨Option.some "t"⟩⟩, true, true⟩
    ⟨⟨Option.some "t"⟩⟩ "t" 12 7 rfl rfl rfl rfl

/-- C3: on an initialized coordinator, when role verification resolves to
`false`, `sendPositionUpdate` applies the created event to the local group
state stamped with `runtime.clientId ?? ""` and the current reference
timestamp, and sends nothing on the transport. -/
theorem sendPositionUpdate_role_denied {ε : Type}
    (clientId : Option String) (timestamp : ℤ)
    (createEvt : IMediaPlayerState → ε) (state : IMediaPlayerState) :
    sendPositionUpdate true false clientId timestamp createEvt state =
      Except.ok
        ⟨Option.some (clientId.getD "", timestamp, createEvt state),
          Option.none⟩ := by
  simp [sendPositionUpdate]

/-- C4: `createChildren` registers the play, pause, seekTo, setTrack and
setTrackData targets on the scope restricted to the roles handed to
`initialize()`, and the positionUpdate and joined targets on the
unrestricted scope; consequently, for a sender holding none of a non-empty
allowed-role list, the only targets whose scope delivers the event are
`positionUpdate` and `joined`, and those two deliver for every sender. -/
theorem createChildren_scope_registration (acceptFrom : Option (List Role))
    (allowed senderRoles anyRoles : List Role) (hne : allowed ≠ [])
    (hnone : ∀ r ∈ allowed, r ∉ senderRoles) :
    (∀ name, name ∈ ["setTrack", "setTrackData", "play", "pause", "seekTo"] →
      (name, (⟨acceptFrom⟩ : Scope)) ∈ createChildrenTargets acceptFrom) ∧
    ("positionUpdate", (⟨Option.none⟩ : Scope)) ∈
      createChildrenTargets acceptFrom ∧
    ("joined", (⟨Option.none⟩ : Scope)) ∈ createChildrenTargets acceptFrom ∧
    (((createChildrenTargets (Option.some allowed)).filter
        (fun p => scopeDelivers p.2 senderRoles)).map Prod.fst =
      ["positionUpdate", "joined"]) ∧
    (∀ p ∈ createChildrenTargets acceptFrom, p.2 = ⟨Option.none⟩ →
      scopeDelivers p.2 anyRoles = true) := by
  have hany : (allowed.any fun role => decide (role ∈ senderRoles)) = false := by
    rw [List.any_eq_false]
    intro r hr
    simpa using hnone r hr
  have hempty : allowed.isEmpty = false := by
    rcases allowed with _ | ⟨a, rest⟩
    · exact absurd rfl hne
    · rfl
  refine ⟨?_, ?_, ?_, ?_, ?_⟩
  · intro name hname
    fin_cases hname <;> simp [createChildrenTargets]
  · simp [createChildrenTargets]
  · simp [createChildrenTargets]
  · simp [createChildrenTargets, scopeDelivers, hany, hempty]
  · intro p hp hscope
    rw [hscope]
    rfl

/-- C4 witness: allowed roles `["presenter"]`, a sender holding only
`["guest"]`: of all registered targets only positionUpdate and joined
deliver. -/
theorem createChildren_scope_registration_witness :
    ((createChildrenTargets (Option.some ["presenter"])).filter
        (fun p => scopeDelivers p.2 ["guest"])).map Prod.fst =
      ["positionUpdate", "joined"] :=
  (createChildren_scope_registration (Option.some ["presenter"])
    ["presenter"] ["guest"] [] (by decide) (by decide)).2.2.2.1

/-- C6: `maxPlaybackDrift` defaults to 1 second and
`positionUpdateInterval` to 2 seconds; the seconds setter stores a positive
value exactly and leaves the interval unchanged on a non-positive value, so
an interval that starts positive stays positive through every assignment. -/
theorem interval_defaults_and_setter :
    defaultMaxPlaybackDrift.seconds = 1 ∧
    defaultPositionUpdateInterval.seconds = 2 ∧
    (∀ (t : TimeInterval) (v : ℚ),
      (0 < v → (t.setSeconds v).seconds = v) ∧
      (v ≤ 0 → t.setSeconds v = t)) ∧
    (∀ (t : TimeInterval) (v : ℚ),
      0 < t.seconds → 0 < (t.setSeconds v).seconds) := by
  refine ⟨by norm_num [TimeInterval.seconds, defaultMaxPlaybackDrift],
    by norm_num [TimeInterval.seconds, defaultPositionUpdateInterval],
    ?_, ?_⟩
  · intro t v
    constructor
    · intro hv
      rw [TimeInterval.setSeconds, if_pos hv, TimeInterval.seconds]
      field_simp
    · intro hv
      rw [TimeInterval.setSeconds, if_neg (not_lt.mpr hv)]
  · intro t v ht
    by_cases hv : 0 < v
    · rw [TimeInterval.setSeconds, if_pos hv, TimeInterval.seconds]
      positivity
    · rwa [TimeInterval.setSeconds, if_neg hv]

/-- C6 witness: assigning 0.5 s to the default drift interval stores 0.5;
assigning -1 s leaves it unchanged. -/
theorem interval_defaults_and_setter_witness :
    (defaultMaxPlaybackDrift.setSeconds (1 / 2)).seconds = 1 / 2 ∧
    defaultMaxPlaybackDrift.setSeconds (-1) = defaultMaxPlaybackDrift :=
  ⟨(interval_defaults_and_setter.2.2.1 defaultMaxPlaybackDrift
      (1 / 2)).1 (by norm_num),
   (interval_defaults_and_setter.2.2.1 defaultMaxPlaybackDrift
      (-1)).2 (by norm_num)⟩

/-- C7 counterexample: ending a suspension with resume position -1 while the
group is neither suspended nor waiting issues a seek to 0, not to the
supplied resume position, so the claim as stated fails at -1. -/
theorem end_suspension_negative_resume_counterexample :
    (suspensionEndCallback (Option.some (-1)) false false).seekTarget =
        Option.some 0 ∧
    (suspensionEndCallback (Option.some (-1)) false false).seekTarget ≠
        Option.some (-1) := by
  decide

/-- C7 (amended): `end(resume_position)` with a defined resume position
always calls `endSuspension` (clearing the local suspension, with
`seekEnded = false`) and, when the group is neither suspended nor waiting
afterwards, issues `seekTo(max(resume_position, 0))`; when the group is
still suspended or waiting it issues no seek; `end()` with no resume
position calls `endSuspension` with `seekEnded = true` and issues no
seek. -/
theorem end_suspension_behavior (t : ℚ) (susp wait : Bool) :
    (suspensionEndCallback (Option.some t) susp wait).endSuspensionSeekEnded =
        false ∧
    (susp = false → wait = false →
      (suspensionEndCallback (Option.some t) susp wait).seekTarget =
        Option.some (max t 0)) ∧
    (susp = true ∨ wait = true →
      (suspensionEndCallback (Option.some t) susp wait).seekTarget =
        Option.none) ∧
    (suspensionEndCallback Option.none susp wait).endSuspensionSeekEnded =
        true ∧
    (suspensionEndCallback Option.none susp wait).seekTarget =
        Option.none := by
  refine ⟨rfl, ?_, ?_, rfl, rfl⟩
  · intro hs hw
    simp [suspensionEndCallback, hs, hw]
  · intro h
    rcases h with h | h <;> simp [suspensionEndCallback, h]

/-- C7 witness: ending with resume position 20 while the group is neither
suspended nor waiting seeks to max 20 0 = 20. -/
theorem end_suspension_behavior_witness :
    (suspensionEndCallback (Option.some 20) false false).seekTarget =
      Option.some (max 20 0) :=
  (end_suspension_behavior 20 false false).2.1 rfl rfl

/-- C8: the position `play()` and `pause()` embed in the transport event is
`getPlayerPosition`, which is 0 when the playback state is `none` or
`ended`, or the position state is absent, or its position is undefined, and
is otherwise exactly the reported position. -/
theorem player_position_embedding (state : IMediaPlayerState) :
    ((state.playbackState = PlaybackState.none ∨
        state.playbackState = PlaybackState.ended ∨
        state.positionState = Option.none ∨
        (∃ ps, state.positionState = Option.some ps ∧
          ps.position = Option.none)) →
      getPlayerPosition state = 0) ∧
    (∀ ps p, state.playbackState ≠ PlaybackState.none →
      state.playbackState ≠ PlaybackState.ended →
      state.positionState = Option.some ps → ps.position = Option.some p →
      getPlayerPosition state = p) ∧
    (∀ c evt, (Coordinator.play c state).sent = Option.some evt →
      evt.position = getPlayerPosition state) ∧
    (∀ c evt, (Coordinator.pause c state).sent = Option.some evt →
      evt.position = getPlayerPosition state) := by
  refine ⟨?_, ?_, ?_, ?_⟩
  · intro h
    rcases h with h | h | h | ⟨ps, hps, hp⟩ <;>
      cases hpb : state.playbackState <;>
        simp_all [getPlayerPosition]
  · intro ps p h1 h2 hps hp
    cases hpb : state.playbackState <;>
      simp_all [getPlayerPosition]
  · intro c evt h
    by_cases h1 : c.hasInitialized = false
    · simp [Coordinator.play, h1] at h
    · rcases hg : c.groupState with _ | gs
      · simp [Coordinator.play, h1, hg] at h
      · rcases hm : gs.playbackTrackCurrent.metadata with _ | m
        · simp [Coordinator.play, h1, hg, hm] at h
        · by_cases h2 : c.canPlayPause = false
          · simp [Coordinator.play, h1, hg, hm, h2] at h
          · simp [Coordinator.play, h1, hg, hm, h2] at h
            rw [← h]
  · intro c evt h
    by_cases h1 : c.hasInitialized = false
    · simp [Coordinator.pause, h1] at h
    · rcases hg : c.groupState with _ | gs
      · simp [Coordinator.pause, h1, hg] at h
      · rcases hm : gs.playbackTrackCurrent.metadata with _ | m
        · simp [Coordinator.pause, h1, hg, hm] at h
        · by_cases h2 : c.canPlayPause = false
          · simp [Coordinator.pause, h1, hg, hm, h2] at h
          · simp [Coordinator.pause, h1, hg, hm, h2] at h
            rw [← h]

/-- C8 witness: a playing player reporting position 7 makes `play()` embed
position 7 in the transport event it sends. -/
theorem player_position_embedding_witness :
    (Coordinator.play ⟨true, Option.some ⟨⟨Option.some "t"⟩⟩, true, true⟩
        ⟨Option.none, Option.none, PlaybackState.playing,
          Option.some ⟨Option.some 7⟩⟩).sent =
      Option.some ⟨⟨Option.some "t"⟩, 7⟩ ∧
    getPlayerPosition
        ⟨Option.none, Option.none, PlaybackState.playing,
          Option.some ⟨Option.some 7⟩⟩ = 7 :=
  ⟨by decide,
   (player_position_embedding
      ⟨Option.none, Option.none, PlaybackState.playing,
        Option.some ⟨Option.some 7⟩⟩).2.1 ⟨Option.some 7⟩ 7
      (by decide) (by decide) rfl rfl⟩

/-- C9: whenever the suspension-end callback issues a seek for a defined
resume position `t`, the target is `max t 0`; in particular a negative
resume position seeks to 0. -/
theorem end_resume_position_clamped (t : ℚ) (susp wait : Bool) :
    (∀ target,
      (suspensionEndCallback (Option.some t) susp wait).seekTarget =
          Option.some target →
      target = max t 0 ∧ 0 ≤ target) ∧
    (t < 0 → susp = false → wait = false →
      (suspensionEndCallback (Option.some t) susp wait).seekTarget =
        Option.some 0) := by
  constructor
  · intro target h
    rcases hs : susp with _ | _ <;> rcases hw : wait with _ | _ <;>
      simp_all [suspensionEndCallback]
    rw [← h]
    exact le_max_right t 0
  · intro ht hs hw
    have : max t 0 = 0 := max_eq_right (le_of_lt ht)
    simp [suspensionEndCallback, hs, hw, this]

/-- C9 witness: at resume position -3 with the group neither suspended nor
waiting, the issued seek targets max (-3) 0 = 0. -/
theorem end_resume_position_clamped_witness :
    ((0 : ℚ) = max (-3 : ℚ) 0 ∧ (0 : ℚ) ≤ 0) ∧
    (suspensionEndCallback (Option.some (-3)) false false).seekTarget =
      Option.some 0 :=
  ⟨(end_resume_position_clamped (-3) false false).1 0 (by decide),
   (end_resume_position_clamped (-3) false false).2 (by norm_num) rfl rfl⟩

end LiveShare
